import Mathlib

/-!
Shallow embedding of the two source files of this repository excerpt:

* `dev/integration_tests/flutter_gallery/linux/flutter/generated_plugin_registrant.cc`
  defines the generated registration entry point `fl_register_plugins`, which looks
  up a registrar for the plugin name "UrlLauncherPlugin" via the framework call
  `fl_plugin_registry_get_registrar_for_plugin` and forwards the result to
  `url_launcher_plugin_register_with_registrar`.

* `dev/integration_tests/android_views/ios/Runner/SimplePlatformView.h`
  declares two Objective-C interfaces, `SimplePlatformView` and
  `SimplePlatformViewFactory`, inside an `NS_ASSUME_NONNULL` region.

The C function is embedded as a pure function from an abstract framework
(the oracle answering the registrar lookup) and a registry handle to the
trace of external calls it performs, in order.  The header is embedded as
declarative data describing its declarations.
-/

/-- Handle type of `FlPluginRegistry*`; the handle value is abstract, so we use `Nat`. -/
abbrev FlPluginRegistry := Nat

/-- Handle type of `FlPluginRegistrar*`; the handle value is abstract, so we use `Nat`. -/
abbrev FlPluginRegistrar := Nat

/-- One external call performed by `fl_register_plugins`, with its arguments.
The lookup event also records the registrar handle the framework returned. -/
inductive FlCall where
  | get_registrar_for_plugin (registry : FlPluginRegistry) (pluginName : String)
      (result : FlPluginRegistrar)
  | url_launcher_register_with_registrar (registrar : FlPluginRegistrar)
deriving DecidableEq, Repr

/-- The framework environment: the behavior of
`fl_plugin_registry_get_registrar_for_plugin`, which is external to this repository. -/
structure FlFramework where
  get_registrar_for_plugin : FlPluginRegistry → String → FlPluginRegistrar

/-- Embedding of `fl_register_plugins` from `generated_plugin_registrant.cc`:

```c
void fl_register_plugins(FlPluginRegistry* registry) {
  g_autoptr(FlPluginRegistrar) url_launcher_linux_registrar =
      fl_plugin_registry_get_registrar_for_plugin(registry, "UrlLauncherPlugin");
  url_launcher_plugin_register_with_registrar(url_launcher_linux_registrar);
}
```

The result is the ordered trace of external calls the body performs; the C
function itself returns `void` (see `fl_register_plugins_sig`). -/
def fl_register_plugins (fw : FlFramework) (registry : FlPluginRegistry) : List FlCall :=
  let url_launcher_linux_registrar :=
    fw.get_registrar_for_plugin registry "UrlLauncherPlugin"
  [FlCall.get_registrar_for_plugin registry "UrlLauncherPlugin" url_launcher_linux_registrar,
   FlCall.url_launcher_register_with_registrar url_launcher_linux_registrar]

/-- Name of the external routine a trace event calls. -/
def FlCall.callee : FlCall → String
  | .get_registrar_for_plugin _ _ _ => "fl_plugin_registry_get_registrar_for_plugin"
  | .url_launcher_register_with_registrar _ => "url_launcher_plugin_register_with_registrar"

/-- Whether a trace event is a call to a plugin registration routine. -/
def FlCall.isPluginRegistrationCall : FlCall → Bool
  | .url_launcher_register_with_registrar _ => true
  | _ => false

/-- Whether a trace event is a registrar lookup on the registry. -/
def FlCall.isRegistrarLookup : FlCall → Bool
  | .get_registrar_for_plugin _ _ _ => true
  | _ => false

/-- The plugin name argument of a registrar lookup event, when the event is one. -/
def FlCall.lookupPluginName : FlCall → Option String
  | .get_registrar_for_plugin _ pluginName _ => some pluginName
  | _ => none

/-- The registrar argument of a registration call event, when the event is one. -/
def FlCall.registrationArgument : FlCall → Option FlPluginRegistrar
  | .url_launcher_register_with_registrar registrar => some registrar
  | _ => none

/-- The routine names of this repository that are plugin registration routines. -/
def registrationRoutines : List String :=
  ["url_launcher_plugin_register_with_registrar"]

/-- Declarative record of a C function signature. -/
structure CFunctionSig where
  name : String
  paramTypes : List String
  returnType : String
deriving DecidableEq, Repr

/-- The C signature of `fl_register_plugins` as written in the source:
`void fl_register_plugins(FlPluginRegistry* registry)`. -/
def fl_register_plugins_sig : CFunctionSig :=
  { name := "fl_register_plugins"
    paramTypes := ["FlPluginRegistry*"]
    returnType := "void" }

/-- Nullability of an Objective-C pointer declaration. -/
inductive Nullability where
  | nonnull
  | nullable
  | unspecified
deriving DecidableEq, Repr

/-- A parameter of an Objective-C method declaration.  `explicitNullability` is
`none` when the source writes no nullability annotation on the parameter. -/
structure ObjCParam where
  name : String
  type : String
  explicitNullability : Option Nullability
deriving DecidableEq, Repr

/-- A method declared in an Objective-C interface. -/
structure ObjCMethod where
  selector : String
  params : List ObjCParam
  returnType : String
  returnExplicitNullability : Option Nullability
deriving DecidableEq, Repr

/-- An Objective-C `@interface` declaration: its name, superclass, adopted
protocols, declared methods, and whether it sits inside an
`NS_ASSUME_NONNULL_BEGIN`/`NS_ASSUME_NONNULL_END` region. -/
structure ObjCInterface where
  name : String
  superclass : String
  protocols : List String
  methods : List ObjCMethod
  inAssumeNonnullRegion : Bool
deriving DecidableEq, Repr

/-- Effective nullability of a declaration per the clang audited-region rule:
an explicit annotation wins; otherwise a declaration inside an
`NS_ASSUME_NONNULL` region is nonnull, and outside one it is unspecified. -/
def effectiveNullability (explicit : Option Nullability)
    (inAssumeNonnullRegion : Bool) : Nullability :=
  match explicit with
  | some n => n
  | none => if inAssumeNonnullRegion then Nullability.nonnull else Nullability.unspecified

/-- Embedding of `@interface SimplePlatformView : NSObject <FlutterPlatformView>`
from `SimplePlatformView.h`: it declares no members of its own. -/
def SimplePlatformView_interface : ObjCInterface :=
  { name := "SimplePlatformView"
    superclass := "NSObject"
    protocols := ["FlutterPlatformView"]
    methods := []
    inAssumeNonnullRegion := true }

/-- Embedding of the one method the factory interface declares:
`- (instancetype)initWithRegistrar:(NSObject<FlutterPluginRegistrar> *)registrar;`
with no explicit nullability annotations in the source. -/
def initWithRegistrar_method : ObjCMethod :=
  { selector := "initWithRegistrar:"
    params := [{ name := "registrar"
                 type := "NSObject<FlutterPluginRegistrar> *"
                 explicitNullability := none }]
    returnType := "instancetype"
    returnExplicitNullability := none }

/-- Embedding of
`@interface SimplePlatformViewFactory : NSObject <FlutterPlatformViewFactory>`
from `SimplePlatformView.h`, declaring only `initWithRegistrar:`. -/
def SimplePlatformViewFactory_interface : ObjCInterface :=
  { name := "SimplePlatformViewFactory"
    superclass := "NSObject"
    protocols := ["FlutterPlatformViewFactory"]
    methods := [initWithRegistrar_method]
    inAssumeNonnullRegion := true }

/-- The list of interface declarations of `SimplePlatformView.h`, in source order. -/
def SimplePlatformView_h : List ObjCInterface :=
  [SimplePlatformView_interface, SimplePlatformViewFactory_interface]

/-- A concrete framework environment used by witness theorems. -/
def testFramework : FlFramework :=
  { get_registrar_for_plugin := fun registry _ => registry + 100 }

/-- A second concrete framework environment used by witness theorems. -/
def testFramework2 : FlFramework :=
  { get_registrar_for_plugin := fun registry _ => registry + 100 }

/-- C1: for every plugin-registry handle passed to `fl_register_plugins`, the
function invokes exactly one plugin registration routine, namely
`url_launcher_plugin_register_with_registrar`, and invokes it exactly once:
the registration-routine calls of its call trace are exactly one occurrence of
that routine. -/
theorem fl_register_plugins_exactly_one_registration_call
    (fw : FlFramework) (registry : FlPluginRegistry) :
    ((fl_register_plugins fw registry).map FlCall.callee).filter
        (fun s => registrationRoutines.contains s) =
      ["url_launcher_plugin_register_with_registrar"] := rfl

/-- C2: for every registry handle, the argument passed to
`url_launcher_plugin_register_with_registrar` is exactly the registrar handle
returned by `fl_plugin_registry_get_registrar_for_plugin` applied to the
registry: the registration calls of the trace are exactly one call whose
argument is that lookup result, forwarded unmodified. -/
theorem fl_register_plugins_forwards_registrar
    (fw : FlFramework) (registry : FlPluginRegistry) :
    (fl_register_plugins fw registry).filterMap FlCall.registrationArgument =
      [fw.get_registrar_for_plugin registry "UrlLauncherPlugin"] := rfl

/-- C3: `fl_register_plugins` has no error branch: for every framework behavior
and every registry handle its call trace is unconditionally the registrar
lookup followed by the forwarding registration call; no input makes it return
an error or skip the call. -/
theorem fl_register_plugins_no_error_branch
    (fw : FlFramework) (registry : FlPluginRegistry) :
    fl_register_plugins fw registry =
      [FlCall.get_registrar_for_plugin registry "UrlLauncherPlugin"
          (fw.get_registrar_for_plugin registry "UrlLauncherPlugin"),
       FlCall.url_launcher_register_with_registrar
          (fw.get_registrar_for_plugin registry "UrlLauncherPlugin")] := rfl

/-- C4: the header declares exactly two Objective-C interfaces,
`SimplePlatformView` conforming to `FlutterPlatformView` and
`SimplePlatformViewFactory` conforming to `FlutterPlatformViewFactory`, and
neither declares any member beyond the factory's single `initWithRegistrar:`
declaration. -/
theorem simplePlatformView_header_two_interfaces :
    SimplePlatformView_h.length = 2 ∧
    SimplePlatformView_h.map ObjCInterface.name =
      ["SimplePlatformView", "SimplePlatformViewFactory"] ∧
    SimplePlatformView_h.map ObjCInterface.protocols =
      [["FlutterPlatformView"], ["FlutterPlatformViewFactory"]] ∧
    SimplePlatformView_interface.methods = [] ∧
    SimplePlatformViewFactory_interface.methods.map ObjCMethod.selector =
      ["initWithRegistrar:"] :=
  ⟨rfl, rfl, rfl, rfl, rfl⟩

/-- C5: `fl_register_plugins` reads and writes no global state: its observable
behavior is a function of its registry argument and the framework's response to
the one lookup it makes, so two runs on equal registry handles under frameworks
answering that lookup identically perform the identical call sequence with
identical arguments. -/
theorem fl_register_plugins_deterministic
    (fw₁ fw₂ : FlFramework) (r₁ r₂ : FlPluginRegistry) (hreg : r₁ = r₂)
    (hfw : fw₁.get_registrar_for_plugin r₁ "UrlLauncherPlugin" =
           fw₂.get_registrar_for_plugin r₂ "UrlLauncherPlugin") :
    fl_register_plugins fw₁ r₁ = fl_register_plugins fw₂ r₂ := by
  subst hreg
  simp [fl_register_plugins, hfw]

/-- Witness for C5: the determinism theorem applied at two concrete frameworks
and the concrete registry handle 3. -/
theorem fl_register_plugins_deterministic_witness :
    (3 : FlPluginRegistry) = 3 ∧
    testFramework.get_registrar_for_plugin 3 "UrlLauncherPlugin" =
      testFramework2.get_registrar_for_plugin 3 "UrlLauncherPlugin" ∧
    fl_register_plugins testFramework 3 = fl_register_plugins testFramework2 3 :=
  ⟨rfl, rfl, fl_register_plugins_deterministic testFramework testFramework2 3 3 rfl rfl⟩

/-- C6: `fl_register_plugins` takes exactly one parameter, of type
`FlPluginRegistry*`, and returns `void`; and registering the plugin is its only
effect: every trace consists of exactly the registrar lookup and the
registration call. -/
theorem fl_register_plugins_signature_and_effects :
    fl_register_plugins_sig.paramTypes = ["FlPluginRegistry*"] ∧
    fl_register_plugins_sig.returnType = "void" ∧
    ∀ (fw : FlFramework) (registry : FlPluginRegistry),
      (fl_register_plugins fw registry).map FlCall.callee =
        ["fl_plugin_registry_get_registrar_for_plugin",
         "url_launcher_plugin_register_with_registrar"] :=
  ⟨rfl, rfl, fun _ _ => rfl⟩

/-- C7: the plugin name under which `fl_register_plugins` looks up the
registrar is exactly the literal "UrlLauncherPlugin": for every framework
behavior and registry handle, the lookup events of its trace carry exactly that
one plugin-name argument. -/
theorem fl_register_plugins_lookup_name
    (fw : FlFramework) (registry : FlPluginRegistry) :
    (fl_register_plugins fw registry).filterMap FlCall.lookupPluginName =
      ["UrlLauncherPlugin"] := rfl

/-- C8: in every execution of `fl_register_plugins` the registrar lookup
happens strictly before the registration call: the first lookup event of the
trace sits at a strictly smaller index than the first registration event, and
by C1 and C3 each occurs exactly once. -/
theorem fl_register_plugins_lookup_before_registration
    (fw : FlFramework) (registry : FlPluginRegistry) :
    (fl_register_plugins fw registry).findIdx FlCall.isRegistrarLookup <
      (fl_register_plugins fw registry).findIdx FlCall.isPluginRegistrationCall := by
  show (0 : Nat) < 1
  decide

/-- C9: the `initWithRegistrar:` declaration of `SimplePlatformViewFactory`
sits inside an `NS_ASSUME_NONNULL` region and carries no explicit annotations,
so its registrar parameter and its `instancetype` result are effectively
non-nullable. -/
theorem simplePlatformViewFactory_registrar_nonnull :
    SimplePlatformViewFactory_interface.inAssumeNonnullRegion = true ∧
    initWithRegistrar_method.params.map
        (fun p => effectiveNullability p.explicitNullability
          SimplePlatformViewFactory_interface.inAssumeNonnullRegion) =
      [Nullability.nonnull] ∧
    effectiveNullability initWithRegistrar_method.returnExplicitNullability
        SimplePlatformViewFactory_interface.inAssumeNonnullRegion =
      Nullability.nonnull :=
  ⟨rfl, rfl, rfl⟩
